import Mathlib

/-!
# pidfd (Linux): `open`, `File.sendSignal`, `File.wrap`

A shallow embedding of `pidfd_linux.go`.  The three functions of the file are
straight-line code around five collaborator calls (`unix.PidfdOpen`,
`socket.New`, `Conn.SyscallConn`, `Conn.PidfdSendSignal`, `RawConn.Control`).
The collaborators are an explicit `World` of answers; every function returns
its Go result together with the list of collaborator calls it made, in order.

Target: linux/amd64, where `int` and `uintptr` are 64 bits wide.
-/

namespace Pidfd

/-! ## Values -/

/-- Modelled from the spec: the declaration of `Error` is outside
`pidfd_linux.go`; the two fields are those set by the composite literals in
`open` and `wrap` (`FD int`, `Err error`).  `Err` is an interface value and may
be nil (`none`). -/
structure Error (ε : Type) where
  FD : Int
  Err : Option ε
deriving Repr

/-- Dynamic values of Go's `error` interface, nil excluded (a possibly-nil
`error` is an `Option GoError`). -/
inductive GoError where
  /-- A `unix.Errno` (`syscall.Errno`). -/
  | errno (code : Nat)
  /-- Any other error of a collaborator, e.g. `*os.SyscallError`. -/
  | foreign (text : String)
  /-- The result of `fmt.Errorf`, with the formatted message. -/
  | errorf (msg : String)
  /-- A `*Error` of this package. -/
  | ptr (e : Error GoError)

/-- The type assertion `err.(*Error)`. -/
def asError : Option GoError → Option (Error GoError)
  | some (.ptr e) => some e
  | _ => none

/-- The "no such process" errno, `unix.ESRCH`. -/
def ESRCH : Nat := 3

/-- Source: `var esrch = unix.ESRCH`. -/
def esrch : GoError := .errno ESRCH

/-- The constant `unix.PIDFD_NONBLOCK` (`O_NONBLOCK`, 0x800 on linux/amd64). -/
def PIDFD_NONBLOCK : Int := 0x800

/-- The struct `unix.Siginfo`, the `info` argument of `pidfd_send_signal`. -/
structure Siginfo where
  Signo : Int
  Errno : Int
  Code : Int
deriving DecidableEq, Repr

/-- Dynamic values of the interface `os.Signal`. -/
inductive OsSignal where
  /-- A `unix.Signal` (`syscall.Signal`, an `int`). -/
  | unix (sig : Int)
  /-- A value of any other dynamic type; `typeName` is what `%T` prints
  (`<nil>` for the nil interface). -/
  | other (typeName : String)
deriving DecidableEq, Repr

/-- What `%T` prints for a signal value. -/
def OsSignal.typeName : OsSignal → String
  | .unix _ => "syscall.Signal"
  | .other n => n

/-- A `*socket.Conn`: the descriptor object of a File. -/
structure Conn where
  id : Nat
deriving DecidableEq, Repr

/-- A `syscall.RawConn`. -/
structure RawConn where
  id : Nat
deriving DecidableEq, Repr

/-- Modelled from the spec: the declaration of `File` is outside
`pidfd_linux.go`; the two fields are those set by the composite literal in
`open` (`c`, `rc`). -/
structure File where
  c : Conn
  rc : RawConn
deriving DecidableEq, Repr

/-! ## Collaborators -/

/-- Outcome of `rc.Control(f)`: whether the callback `f` ran (and on which
descriptor), and whether Control returned an error.  `wrap` sees the first
through the variable the callback assigns and discards the second. -/
inductive ControlResult where
  /-- The callback `f` ran once on the descriptor `cfd`; Control returned nil. -/
  | invoked (cfd : Nat)
  /-- Control returned an error; `f` did not run. -/
  | failed (err : GoError)
  /-- Control returned nil although `f` did not run. -/
  | skipped
  /-- The callback `f` ran once on the descriptor `cfd`; Control then returned
  an error. -/
  | ranThenFailed (cfd : Nat) (err : GoError)

/-- The answers of the collaborators. -/
structure World where
  /-- Result of `unix.PidfdOpen(pid, flags)`. -/
  PidfdOpen : Int → Int → Except GoError Int
  /-- Result of `socket.New(fd, name)`. -/
  New : Int → String → Except GoError Conn
  /-- Result of `c.SyscallConn()`. -/
  SyscallConn : Conn → Except GoError RawConn
  /-- Result of `c.PidfdSendSignal(sig, info, flags)`. -/
  PidfdSendSignal : Conn → Int → Option Siginfo → Int → Option GoError
  /-- Result of `rc.Control(f)`. -/
  Control : RawConn → ControlResult

/-- One call made to a collaborator. -/
inductive Call where
  | pidfdOpen (pid : Int) (flags : Int)
  | socketNew (fd : Int) (name : String)
  | syscallConn (c : Conn)
  | pidfdSendSignal (c : Conn) (sig : Int) (info : Option Siginfo) (flags : Int)
  | control (rc : RawConn)
  | close (fd : Int)
deriving DecidableEq, Repr

/-- A Go result together with the collaborator calls made to produce it. -/
structure Ran (α : Type) where
  value : α
  calls : List Call

/-! ## Integer conversions -/

/-- The conversion `uintptr(d)` of an `int`. -/
def uintptrOfInt (d : Int) : Nat := (d % 2 ^ 64).toNat

/-- The conversion `int(cfd)` of a `uintptr`. -/
def intOfUintptr (cfd : Nat) : Int :=
  if cfd % 2 ^ 64 < 2 ^ 63 then ((cfd % 2 ^ 64 : Nat) : Int)
  else ((cfd % 2 ^ 64 : Nat) : Int) - 2 ^ 64

/-! ## The functions of `pidfd_linux.go` -/

/-- Source: `func (f *File) wrap(err error) error`. -/
def File.wrap (w : World) (f : File) (err : Option GoError) : Ran (Option GoError) :=
  match err with
  | none => ⟨none, []⟩
  | some _ =>
    -- Best effort.
    let fd : Int :=
      match w.Control f.rc with
      | .invoked cfd => intOfUintptr cfd
      | .failed _ => 0
      | .skipped => 0
      | .ranThenFailed cfd _ => intOfUintptr cfd
    ⟨some (.ptr { FD := fd, Err := err }), [.control f.rc]⟩

/-- Source: `func (f *File) sendSignal(signal os.Signal) error`. -/
def File.sendSignal (w : World) (f : File) (signal : OsSignal) : Ran (Option GoError) :=
  match signal with
  | .unix ssig =>
    let r := f.wrap w (w.PidfdSendSignal f.c ssig none 0)
    ⟨r.value, .pidfdSendSignal f.c ssig none 0 :: r.calls⟩
  | .other _ =>
    ⟨some (.errorf ("pidfd: invalid signal type for File.SendSignal: " ++ signal.typeName)), []⟩

/-- Source: `func open(pid int) (*File, error)`. -/
def openFile (w : World) (pid : Int) : Ran (Option File × Option GoError) :=
  match w.PidfdOpen pid PIDFD_NONBLOCK with
  | .error err =>
    -- No FD to annotate the error yet.
    ⟨(none, some (.ptr { FD := 0, Err := some err })), [.pidfdOpen pid PIDFD_NONBLOCK]⟩
  | .ok fd =>
    match w.New fd "pidfd" with
    | .error err =>
      ⟨(none, some err), [.pidfdOpen pid PIDFD_NONBLOCK, .socketNew fd "pidfd"]⟩
    | .ok c =>
      match w.SyscallConn c with
      | .error err =>
        ⟨(none, some err),
          [.pidfdOpen pid PIDFD_NONBLOCK, .socketNew fd "pidfd", .syscallConn c]⟩
      | .ok rc =>
        ⟨(some { c := c, rc := rc }, none),
          [.pidfdOpen pid PIDFD_NONBLOCK, .socketNew fd "pidfd", .syscallConn c]⟩

/-! ## The set of open descriptors -/

/-- Whether a call is a `PidfdSendSignal`. -/
def Call.isSendSignal : Call → Bool
  | .pidfdSendSignal _ _ _ _ => true
  | _ => false

/-- Whether a call is a `unix.PidfdOpen`. -/
def Call.isPidfdOpen : Call → Bool
  | .pidfdOpen _ _ => true
  | _ => false

/-- Effect of one call on the set of open descriptors: a successful
`pidfd_open` adds the descriptor it returns, `close` removes its argument,
and `socket.New`, `SyscallConn`, `PidfdSendSignal` and `Control` only use a
descriptor that exists. -/
def Call.effect (w : World) (fds : Finset Int) : Call → Finset Int
  | .pidfdOpen pid flags =>
    match w.PidfdOpen pid flags with
    | .ok fd => insert fd fds
    | .error _ => fds
  | .close fd => fds.erase fd
  | _ => fds

/-- The set of open descriptors after a sequence of calls. -/
def openDescriptors (w : World) (before : Finset Int) (calls : List Call) : Finset Int :=
  calls.foldl (Call.effect w) before

/-! ## Concrete worlds -/

/-- A handle as `open` builds it. -/
def sampleFile : File := { c := ⟨0⟩, rc := ⟨0⟩ }

/-- Process 1 runs and gets descriptor 3; every other pid does not exist.
Signal delivery finds the process gone; the handle reports descriptor 3. -/
def sampleWorld : World where
  PidfdOpen pid _ := if pid = 1 then .ok 3 else .error esrch
  New _ _ := .ok ⟨0⟩
  SyscallConn _ := .ok ⟨0⟩
  PidfdSendSignal _ _ _ _ := some esrch
  Control _ := .invoked 3

/-- As `sampleWorld`, with a handle whose descriptor introspection fails. -/
def closedWorld : World where
  PidfdOpen pid _ := if pid = 1 then .ok 3 else .error esrch
  New _ _ := .ok ⟨0⟩
  SyscallConn _ := .ok ⟨0⟩
  PidfdSendSignal _ _ _ _ := some (.errno 9)
  Control _ := .failed (.foreign "use of closed file")

/-- Process 1 runs and `pidfd_open` returns descriptor 3, then `socket.New`
fails while probing the descriptor. -/
def probeFailWorld : World where
  PidfdOpen _ _ := .ok 3
  New _ _ := .error (.foreign "getsockopt: operation not permitted")
  SyscallConn _ := .ok ⟨0⟩
  PidfdSendSignal _ _ _ _ := none
  Control _ := .invoked 3

/-- Converting a 64-bit `int` to `uintptr` and back gives the same number. -/
theorem intOfUintptr_uintptrOfInt (d : Int) (lo : -2 ^ 63 ≤ d) (hi : d < 2 ^ 63) :
    intOfUintptr (uintptrOfInt d) = d := by
  unfold intOfUintptr uintptrOfInt
  have h0 : (0 : Int) ≤ d % 2 ^ 64 := Int.emod_nonneg _ (by norm_num)
  have h1 : d % 2 ^ 64 < 2 ^ 64 := Int.emod_lt_of_pos _ (by norm_num)
  have hc : (((d % 2 ^ 64).toNat : Nat) : Int) = d % 2 ^ 64 := Int.toNat_of_nonneg h0
  have hm : (d % 2 ^ 64).toNat % 2 ^ 64 = (d % 2 ^ 64).toNat := by
    apply Nat.mod_eq_of_lt
    omega
  rw [hm, hc]
  split <;> omega

/-- Result of `wrap` on a non-nil error. -/
theorem wrap_some_value (w : World) (f : File) (e : GoError) :
    ∃ fd, (f.wrap w (some e)).value = some (.ptr { FD := fd, Err := some e }) := by
  unfold File.wrap
  exact ⟨_, rfl⟩

/-- Result of `open` when `pidfd_open` fails. -/
theorem openFile_of_pidfdOpen_error (w : World) (pid : Int) (e : GoError)
    (h : w.PidfdOpen pid PIDFD_NONBLOCK = .error e) :
    (openFile w pid).value = (none, some (.ptr { FD := 0, Err := some e })) ∧
    (openFile w pid).calls = [.pidfdOpen pid PIDFD_NONBLOCK] := by
  unfold openFile
  rw [h]
  exact ⟨rfl, rfl⟩

/-- Result of `open` when `socket.New` fails. -/
theorem openFile_of_new_error (w : World) (pid fd : Int) (e : GoError)
    (h1 : w.PidfdOpen pid PIDFD_NONBLOCK = .ok fd) (h2 : w.New fd "pidfd" = .error e) :
    (openFile w pid).value = (none, some e) ∧
    (openFile w pid).calls = [.pidfdOpen pid PIDFD_NONBLOCK, .socketNew fd "pidfd"] := by
  simp only [openFile, h1, h2, and_self]

/-- Result of `open` when `SyscallConn` fails. -/
theorem openFile_of_syscallConn_error (w : World) (pid fd : Int) (c : Conn) (e : GoError)
    (h1 : w.PidfdOpen pid PIDFD_NONBLOCK = .ok fd) (h2 : w.New fd "pidfd" = .ok c)
    (h3 : w.SyscallConn c = .error e) :
    (openFile w pid).value = (none, some e) ∧
    (openFile w pid).calls =
      [.pidfdOpen pid PIDFD_NONBLOCK, .socketNew fd "pidfd", .syscallConn c] := by
  simp only [openFile, h1, h2, h3, and_self]

/-- Result of `open` when every collaborator call succeeds. -/
theorem openFile_of_ok (w : World) (pid fd : Int) (c : Conn) (rc : RawConn)
    (h1 : w.PidfdOpen pid PIDFD_NONBLOCK = .ok fd) (h2 : w.New fd "pidfd" = .ok c)
    (h3 : w.SyscallConn c = .ok rc) :
    (openFile w pid).value = (some { c := c, rc := rc }, none) ∧
    (openFile w pid).calls =
      [.pidfdOpen pid PIDFD_NONBLOCK, .socketNew fd "pidfd", .syscallConn c] := by
  simp only [openFile, h1, h2, h3, and_self]

/-! ## Claims -/

/-- C1: wrapping keeps the causal error.  For every handle and every non-nil
error, `wrap` returns a `*Error` whose `Err` field is that error, whatever the
descriptor introspection answers; and when `PidfdOpen` fails with `e`, `open`
returns a `*Error` whose `Err` field is `e`. -/
theorem wrap_preserves_cause (w : World) :
    (∀ (f : File) (err : Option GoError), err ≠ none →
      ∃ E, asError (f.wrap w err).value = some E ∧ E.Err = err) ∧
    (∀ (pid : Int) (e : GoError), w.PidfdOpen pid PIDFD_NONBLOCK = .error e →
      ∃ E, asError (openFile w pid).value.2 = some E ∧ E.Err = some e) := by
  constructor
  · intro f err herr
    cases err with
    | none => exact absurd rfl herr
    | some e =>
      obtain ⟨fd, hfd⟩ := wrap_some_value w f e
      exact ⟨{ FD := fd, Err := some e }, by rw [hfd]; rfl, rfl⟩
  · intro pid e h
    refine ⟨{ FD := 0, Err := some e }, ?_, rfl⟩
    rw [(openFile_of_pidfdOpen_error w pid e h).1]
    rfl

/-- Instance of C1: `wrap` on a handle whose introspection fails, and `open` of a pid that does not exist. -/
theorem wrap_preserves_cause_witness :
    (some esrch ≠ none ∧
      ∃ E, asError (sampleFile.wrap closedWorld (some esrch)).value = some E ∧
        E.Err = some esrch) ∧
    (sampleWorld.PidfdOpen 7 PIDFD_NONBLOCK = .error esrch ∧
      ∃ E, asError (openFile sampleWorld 7).value.2 = some E ∧ E.Err = some esrch) :=
  ⟨⟨by simp, (wrap_preserves_cause closedWorld).1 sampleFile (some esrch) (by simp)⟩,
   ⟨rfl, (wrap_preserves_cause sampleWorld).2 7 esrch rfl⟩⟩

/-- C2: when `PidfdOpen` fails with `e` (for instance `ESRCH`), `open` returns
a nil File and a `*Error` with `Err = e` and `FD = 0`, and the only
collaborator call made is the `PidfdOpen` itself: neither `socket.New` nor
`SyscallConn` is invoked. -/
theorem open_failure_has_no_descriptor (w : World) (pid : Int) (e : GoError)
    (h : w.PidfdOpen pid PIDFD_NONBLOCK = .error e) :
    (openFile w pid).value.1 = none ∧
    (openFile w pid).value.2 = some (.ptr { FD := 0, Err := some e }) ∧
    (openFile w pid).calls = [.pidfdOpen pid PIDFD_NONBLOCK] ∧
    (∀ fd name, Call.socketNew fd name ∉ (openFile w pid).calls) ∧
    (∀ c, Call.syscallConn c ∉ (openFile w pid).calls) := by
  obtain ⟨hv, hc⟩ := openFile_of_pidfdOpen_error w pid e h
  rw [hv, hc]
  simp

/-- Instance of C2: `open` of pid 7, which does not exist (`ESRCH`). -/
theorem open_failure_has_no_descriptor_witness :
    sampleWorld.PidfdOpen 7 PIDFD_NONBLOCK = .error esrch ∧
    (openFile sampleWorld 7).value.1 = none ∧
    (openFile sampleWorld 7).value.2 = some (.ptr { FD := 0, Err := some esrch }) ∧
    (openFile sampleWorld 7).calls = [.pidfdOpen 7 PIDFD_NONBLOCK] ∧
    (∀ fd name, Call.socketNew fd name ∉ (openFile sampleWorld 7).calls) ∧
    (∀ c, Call.syscallConn c ∉ (openFile sampleWorld 7).calls) :=
  ⟨rfl, open_failure_has_no_descriptor sampleWorld 7 esrch rfl⟩

/-- C3: for a signal value whose dynamic type is not `unix.Signal`,
`sendSignal` returns a non-nil error built by `fmt.Errorf`, which is not a
`*Error`, and makes no collaborator call at all (no `PidfdSendSignal`, no
`Control`); for a `unix.Signal` the first call made is `PidfdSendSignal`. -/
theorem sendSignal_type_check (w : World) (f : File) :
    (∀ signal : OsSignal, (∀ s, signal ≠ .unix s) →
      (f.sendSignal w signal).value =
        some (.errorf ("pidfd: invalid signal type for File.SendSignal: " ++ signal.typeName)) ∧
      (f.sendSignal w signal).value ≠ none ∧
      asError (f.sendSignal w signal).value = none ∧
      (f.sendSignal w signal).calls = []) ∧
    (∀ s : Int, ∃ rest,
      (f.sendSignal w (.unix s)).calls = .pidfdSendSignal f.c s none 0 :: rest) := by
  constructor
  · intro signal hs
    cases signal with
    | unix s => exact absurd rfl (hs s)
    | other n => exact ⟨rfl, by simp [File.sendSignal], rfl, rfl⟩
  · intro s
    exact ⟨_, rfl⟩

/-- Instance of C3: a signal value of a foreign dynamic type. -/
theorem sendSignal_type_check_witness :
    (∀ s, OsSignal.other "os.fakeSignal" ≠ .unix s) ∧
    (sampleFile.sendSignal sampleWorld (.other "os.fakeSignal")).value =
      some (.errorf "pidfd: invalid signal type for File.SendSignal: os.fakeSignal") ∧
    (sampleFile.sendSignal sampleWorld (.other "os.fakeSignal")).value ≠ none ∧
    asError (sampleFile.sendSignal sampleWorld (.other "os.fakeSignal")).value = none ∧
    (sampleFile.sendSignal sampleWorld (.other "os.fakeSignal")).calls = [] :=
  ⟨by simp,
   (sendSignal_type_check sampleWorld sampleFile).1 (.other "os.fakeSignal") (by simp)⟩

/-- C4: when `PidfdSendSignal` fails with `e` and `Control` runs the callback
on the handle's descriptor number `d` (a Go `int`, passed as `uintptr(d)`),
`sendSignal` returns a `*Error` with `Err = e` and `FD = d`. -/
theorem sendSignal_error_carries_fd (w : World) (f : File) (s : Int) (e : GoError) (d : Int)
    (lo : -2 ^ 63 ≤ d) (hi : d < 2 ^ 63)
    (hsend : w.PidfdSendSignal f.c s none 0 = some e)
    (hctl : w.Control f.rc = .invoked (uintptrOfInt d)) :
    (f.sendSignal w (.unix s)).value = some (.ptr { FD := d, Err := some e }) := by
  simp only [File.sendSignal, File.wrap, hsend, hctl, intOfUintptr_uintptrOfInt d lo hi]

/-- Instance of C4: signal 15 to a process that is gone, on a handle with descriptor 3. -/
theorem sendSignal_error_carries_fd_witness :
    (-2 ^ 63 ≤ (3 : Int) ∧ (3 : Int) < 2 ^ 63 ∧
      sampleWorld.PidfdSendSignal sampleFile.c 15 none 0 = some esrch ∧
      sampleWorld.Control sampleFile.rc = .invoked (uintptrOfInt 3)) ∧
    (sampleFile.sendSignal sampleWorld (.unix 15)).value =
      some (.ptr { FD := 3, Err := some esrch }) :=
  ⟨⟨by norm_num, by norm_num, rfl, rfl⟩,
   sendSignal_error_carries_fd sampleWorld sampleFile 15 esrch 3 (by norm_num) (by norm_num)
     rfl rfl⟩

/-- C5: nil in, nil out.  `wrap` of a nil error returns nil and makes no
collaborator call (no descriptor introspection); `sendSignal` of a
`unix.Signal` returns nil exactly when `PidfdSendSignal` returned nil; and
neither function ever returns a `*Error` whose `Err` field is nil. -/
theorem wrap_nil_is_nil (w : World) (f : File) :
    (f.wrap w none).value = none ∧
    (f.wrap w none).calls = [] ∧
    (∀ s : Int, (f.sendSignal w (.unix s)).value = none ↔
      w.PidfdSendSignal f.c s none 0 = none) ∧
    (∀ (err : Option GoError) (fd : Int),
      (f.wrap w err).value ≠ some (.ptr { FD := fd, Err := none })) ∧
    (∀ (signal : OsSignal) (fd : Int),
      (f.sendSignal w signal).value ≠ some (.ptr { FD := fd, Err := none })) := by
  have hwrap : ∀ (err : Option GoError) (fd : Int),
      (f.wrap w err).value ≠ some (.ptr { FD := fd, Err := none }) := by
    intro err fd
    cases err with
    | none => simp [File.wrap]
    | some e => simp [File.wrap]
  refine ⟨rfl, rfl, ?_, hwrap, ?_⟩
  · intro s
    cases h : w.PidfdSendSignal f.c s none 0 with
    | none => simp [File.sendSignal, File.wrap, h]
    | some e => simp [File.sendSignal, File.wrap, h]
  · intro signal fd
    cases signal with
    | unix s => exact hwrap _ fd
    | other n => simp [File.sendSignal]

/-- C6, as stated, fails: when `pidfd_open` succeeds and `socket.New` then
fails, `open` returns the error of `socket.New` itself, which is not a
`*Error`. -/
theorem open_error_not_always_wrapped :
    (openFile probeFailWorld 1).value.2 =
      some (.foreign "getsockopt: operation not permitted") ∧
    asError (openFile probeFailWorld 1).value.2 = none :=
  ⟨rfl, rfl⟩

/-- C6, amended: when `open` returns a non-nil error, no File is returned, and
either `pidfd_open` failed with `e` and the error is a `*Error` with `Err = e`
and `FD = 0`, or `pidfd_open` succeeded and the error is exactly the error that
`socket.New` or `SyscallConn` returned, passed on as it is. -/
theorem open_error_cases (w : World) (pid : Int) (err : GoError)
    (h : (openFile w pid).value.2 = some err) :
    (openFile w pid).value.1 = none ∧
    ((∃ e, w.PidfdOpen pid PIDFD_NONBLOCK = .error e ∧
        err = .ptr { FD := 0, Err := some e }) ∨
     (∃ fd, w.PidfdOpen pid PIDFD_NONBLOCK = .ok fd ∧ w.New fd "pidfd" = .error err) ∨
     (∃ fd c, w.PidfdOpen pid PIDFD_NONBLOCK = .ok fd ∧ w.New fd "pidfd" = .ok c ∧
        w.SyscallConn c = .error err)) := by
  cases h1 : w.PidfdOpen pid PIDFD_NONBLOCK with
  | error e =>
    obtain ⟨hv, -⟩ := openFile_of_pidfdOpen_error w pid e h1
    rw [hv] at h ⊢
    exact ⟨rfl, Or.inl ⟨e, rfl, (Option.some.inj h).symm⟩⟩
  | ok fd =>
    cases h2 : w.New fd "pidfd" with
    | error e2 =>
      obtain ⟨hv, -⟩ := openFile_of_new_error w pid fd e2 h1 h2
      rw [hv] at h ⊢
      exact ⟨rfl, Or.inr (Or.inl ⟨fd, rfl, by rw [h2, Option.some.inj h]⟩)⟩
    | ok c =>
      cases h3 : w.SyscallConn c with
      | error e3 =>
        obtain ⟨hv, -⟩ := openFile_of_syscallConn_error w pid fd c e3 h1 h2 h3
        rw [hv] at h ⊢
        exact ⟨rfl, Or.inr (Or.inr ⟨fd, c, rfl, h2, by rw [h3, Option.some.inj h]⟩)⟩
      | ok rc =>
        obtain ⟨hv, -⟩ := openFile_of_ok w pid fd c rc h1 h2 h3
        rw [hv] at h
        exact absurd h (by simp)

/-- Instance of C6 as amended: `socket.New` fails after `pidfd_open` returned descriptor 3. -/
theorem open_error_cases_witness :
    (openFile probeFailWorld 1).value.2 =
      some (.foreign "getsockopt: operation not permitted") ∧
    (openFile probeFailWorld 1).value.1 = none ∧
    ((∃ e, probeFailWorld.PidfdOpen 1 PIDFD_NONBLOCK = .error e ∧
        GoError.foreign "getsockopt: operation not permitted" =
          .ptr { FD := 0, Err := some e }) ∨
     (∃ fd, probeFailWorld.PidfdOpen 1 PIDFD_NONBLOCK = .ok fd ∧
        probeFailWorld.New fd "pidfd" =
          .error (.foreign "getsockopt: operation not permitted")) ∨
     (∃ fd c, probeFailWorld.PidfdOpen 1 PIDFD_NONBLOCK = .ok fd ∧
        probeFailWorld.New fd "pidfd" = .ok c ∧
        probeFailWorld.SyscallConn c =
          .error (.foreign "getsockopt: operation not permitted"))) :=
  ⟨rfl, open_error_cases probeFailWorld 1 _ rfl⟩

/-- C8: for a `unix.Signal` `s`, `sendSignal` calls `PidfdSendSignal` exactly
once, first, on the handle's own `c`, with signal `s`, info nil and flags 0;
the only other call it can make is the descriptor introspection, so a failed
delivery is not retried.  For any signal value at all, every
`PidfdSendSignal` call made has info nil and flags 0. -/
theorem sendSignal_calls_once (w : World) (f : File) :
    (∀ s : Int,
      (f.sendSignal w (.unix s)).calls.filter Call.isSendSignal =
        [.pidfdSendSignal f.c s none 0] ∧
      ((f.sendSignal w (.unix s)).calls = [.pidfdSendSignal f.c s none 0] ∨
       (f.sendSignal w (.unix s)).calls =
        [.pidfdSendSignal f.c s none 0, .control f.rc])) ∧
    (∀ (signal : OsSignal) (c : Conn) (sig : Int) (info : Option Siginfo) (flags : Int),
      Call.pidfdSendSignal c sig info flags ∈ (f.sendSignal w signal).calls →
      c = f.c ∧ signal = .unix sig ∧ info = none ∧ flags = 0) := by
  constructor
  · intro s
    cases h : w.PidfdSendSignal f.c s none 0 with
    | none => simp [File.sendSignal, File.wrap, h, Call.isSendSignal]
    | some e => simp [File.sendSignal, File.wrap, h, Call.isSendSignal]
  · intro signal c sig info flags hmem
    cases signal with
    | other n => simp [File.sendSignal] at hmem
    | unix s =>
      cases h : w.PidfdSendSignal f.c s none 0 with
      | none =>
        simp [File.sendSignal, File.wrap, h] at hmem
        obtain ⟨h1, h2, h3, h4⟩ := hmem
        subst h1 h2 h3 h4
        simp
      | some e =>
        simp [File.sendSignal, File.wrap, h] at hmem
        obtain ⟨h1, h2, h3, h4⟩ := hmem
        subst h1 h2 h3 h4
        simp

/-- Instance of C8: the one `PidfdSendSignal` call made for signal 15. -/
theorem sendSignal_calls_once_witness :
    Call.pidfdSendSignal sampleFile.c 15 none 0 ∈
      (sampleFile.sendSignal sampleWorld (.unix 15)).calls ∧
    (sampleFile.c = sampleFile.c ∧ OsSignal.unix 15 = .unix 15 ∧
      (none : Option Siginfo) = none ∧ (0 : Int) = 0) :=
  ⟨by simp [File.sendSignal],
   (sendSignal_calls_once sampleWorld sampleFile).2 (.unix 15) sampleFile.c 15 none 0
     (by simp [File.sendSignal])⟩

/-- C9: `open` calls `pidfd_open` exactly once, first, with the given pid and
with flags equal to `PIDFD_NONBLOCK`, which is not zero; and a File that
`open` returns is built from the descriptor that this call returned. -/
theorem open_is_nonblocking (w : World) (pid : Int) :
    (openFile w pid).calls.filter Call.isPidfdOpen = [.pidfdOpen pid PIDFD_NONBLOCK] ∧
    (openFile w pid).calls.head? = some (.pidfdOpen pid PIDFD_NONBLOCK) ∧
    PIDFD_NONBLOCK ≠ 0 ∧
    (∀ f : File, (openFile w pid).value.1 = some f →
      ∃ fd, w.PidfdOpen pid PIDFD_NONBLOCK = .ok fd ∧ w.New fd "pidfd" = .ok f.c ∧
        w.SyscallConn f.c = .ok f.rc) := by
  have hnz : PIDFD_NONBLOCK ≠ 0 := by decide
  cases h1 : w.PidfdOpen pid PIDFD_NONBLOCK with
  | error e =>
    obtain ⟨hv, hc⟩ := openFile_of_pidfdOpen_error w pid e h1
    rw [hv, hc]
    exact ⟨rfl, rfl, hnz, fun f hf => by simp at hf⟩
  | ok fd =>
    cases h2 : w.New fd "pidfd" with
    | error e2 =>
      obtain ⟨hv, hc⟩ := openFile_of_new_error w pid fd e2 h1 h2
      rw [hv, hc]
      exact ⟨rfl, rfl, hnz, fun f hf => by simp at hf⟩
    | ok c =>
      cases h3 : w.SyscallConn c with
      | error e3 =>
        obtain ⟨hv, hc⟩ := openFile_of_syscallConn_error w pid fd c e3 h1 h2 h3
        rw [hv, hc]
        exact ⟨rfl, rfl, hnz, fun f hf => by simp at hf⟩
      | ok rc =>
        obtain ⟨hv, hc⟩ := openFile_of_ok w pid fd c rc h1 h2 h3
        rw [hv, hc]
        refine ⟨rfl, rfl, hnz, ?_⟩
        intro f hf
        cases Option.some.inj hf
        exact ⟨fd, rfl, h2, h3⟩

/-- Instance of C9: `open` of the running pid 1 returns the sample handle. -/
theorem open_is_nonblocking_witness :
    (openFile sampleWorld 1).value.1 = some sampleFile ∧
    ∃ fd, sampleWorld.PidfdOpen 1 PIDFD_NONBLOCK = .ok fd ∧
      sampleWorld.New fd "pidfd" = .ok sampleFile.c ∧
      sampleWorld.SyscallConn sampleFile.c = .ok sampleFile.rc :=
  ⟨rfl, (open_is_nonblocking sampleWorld 1).2.2.2 sampleFile rfl⟩

/-- C10 fails on the code: with no descriptor open, `pidfd_open` returns
descriptor 3 and `socket.New` then fails; `open` returns that error and no
File, has made no `close` call, and descriptor 3 is still open afterwards. -/
theorem open_failure_leaves_descriptor_open :
    (openFile probeFailWorld 1).value =
      (none, some (.foreign "getsockopt: operation not permitted")) ∧
    (openFile probeFailWorld 1).calls =
      [.pidfdOpen 1 PIDFD_NONBLOCK, .socketNew 3 "pidfd"] ∧
    openDescriptors probeFailWorld ∅ (openFile probeFailWorld 1).calls = {3} ∧
    openDescriptors probeFailWorld ∅ (openFile probeFailWorld 1).calls ≠ ∅ := by
  refine ⟨rfl, rfl, ?_, ?_⟩ <;>
    simp [openFile, probeFailWorld, openDescriptors, Call.effect]

end Pidfd
